import Mathlib

/-!
# Verification of the taskchampion C-ABI marshaling layer

A shallow embedding of `src/taskchampion/lib/src/{string,uda,server,util}.rs`:
the foreign-string type (`FzString` from the ffizz_string crate, re-exported as
`TCString`), the raw list types (`TCStringList`, `TCUdaList`), the UDA record
(`TCUda`), the server constructors with their error-out convention (`wrap`),
and the timestamp conversions from `util.rs`.

Bytes are modelled as `Nat` (values < 256 in all uses), byte buffers as
`List Nat`, and raw pointers as `Nat` with `0` standing for the C NULL
pointer.  Functions whose bodies live in external crates (ffizz_string,
ffizz_passby trait defaults, taskchampion's `utc_timestamp`) are modelled
from the spec and from their documented contracts in the source; each such
definition carries a doc comment starting with "Modelled from the spec".
-/

/-! ## UTF-8 validation

Modelled from the spec: read-as-text "fails if content is not valid text";
Rust's `std::str::from_utf8` reports `valid_up_to`, the length in bytes of
the longest valid-UTF-8 prefix, i.e. the index of the first byte of the
first invalid sequence.  This is a direct transcription of the UTF-8
well-formedness table (RFC 3629).
-/

/-- Is `b` a UTF-8 continuation byte (0x80..0xBF)? -/
def isUtf8Cont (b : Nat) : Bool :=
  0x80 ≤ b && b ≤ 0xBF

/-- Length in bytes of the well-formed UTF-8 sequence starting at the head of
`bs`, or `none` if the head does not begin a well-formed sequence (including
the case of a truncated sequence). -/
def utf8SeqLen : List Nat → Option Nat
  | [] => none
  | b :: rest =>
    if b < 0x80 then some 1
    else if 0xC2 ≤ b && b ≤ 0xDF then
      match rest with
      | c1 :: _ => if isUtf8Cont c1 then some 2 else none
      | [] => none
    else if b == 0xE0 then
      match rest with
      | c1 :: c2 :: _ =>
        if (0xA0 ≤ c1 && c1 ≤ 0xBF) && isUtf8Cont c2 then some 3 else none
      | _ => none
    else if (0xE1 ≤ b && b ≤ 0xEC) || b == 0xEE || b == 0xEF then
      match rest with
      | c1 :: c2 :: _ => if isUtf8Cont c1 && isUtf8Cont c2 then some 3 else none
      | _ => none
    else if b == 0xED then
      match rest with
      | c1 :: c2 :: _ =>
        if (0x80 ≤ c1 && c1 ≤ 0x9F) && isUtf8Cont c2 then some 3 else none
      | _ => none
    else if b == 0xF0 then
      match rest with
      | c1 :: c2 :: c3 :: _ =>
        if (0x90 ≤ c1 && c1 ≤ 0xBF) && isUtf8Cont c2 && isUtf8Cont c3 then some 4 else none
      | _ => none
    else if 0xF1 ≤ b && b ≤ 0xF3 then
      match rest with
      | c1 :: c2 :: c3 :: _ =>
        if isUtf8Cont c1 && isUtf8Cont c2 && isUtf8Cont c3 then some 4 else none
      | _ => none
    else if b == 0xF4 then
      match rest with
      | c1 :: c2 :: c3 :: _ =>
        if (0x80 ≤ c1 && c1 ≤ 0x8F) && isUtf8Cont c2 && isUtf8Cont c3 then some 4 else none
      | _ => none
    else none

/-- Fuel-driven scan: byte length of the longest well-formed UTF-8 prefix of
`bs`, accumulated in `acc`.  Each step consumes at least one byte, so fuel
equal to the list length suffices. -/
def utf8ValidUpToAux : Nat → List Nat → Nat → Nat
  | 0, _, acc => acc
  | fuel + 1, bs, acc =>
    match utf8SeqLen bs with
    | some n => utf8ValidUpToAux fuel (bs.drop n) (acc + n)
    | none => acc

/-- `valid_up_to` of Rust's `Utf8Error`: the byte length of the longest
well-formed UTF-8 prefix of `bs`. -/
def utf8ValidUpTo (bs : List Nat) : Nat :=
  utf8ValidUpToAux bs.length bs 0

/-- Whether `bs` is entirely well-formed UTF-8. -/
def validUtf8 (bs : List Nat) : Bool :=
  utf8ValidUpTo bs == bs.length

/-- Model of Rust's `std::str::Utf8Error`: only the `valid_up_to` field is
relevant to this layer. -/
structure Utf8Error where
  valid_up_to : Nat
deriving DecidableEq

/-- Modelled from the spec: a human-readable message for a Utf8Error, as
produced by its Display implementation; the exact text is irrelevant to the
layer's contract, so the rendering is abstracted to an injective encoding. -/
def Utf8Error.message (e : Utf8Error) : List Nat :=
  [117, 116, 102, 56, e.valid_up_to]

/-! ## The foreign string type

`TCString` is a re-export of ffizz_string's `fz_string_t`, the C
representation of `FzString`.  Modelled from the spec (section 4.4): states
Borrowed (a `&CStr`), Owned (`CString`, `String` or raw `Bytes`), and `Null`.
The variants mirror the ones the source's tests construct: `CString`,
`CStr`, `String`, `Bytes`, `Null`.  `CString`/`CStr` hold their content
bytes without the NUL terminator and, by Rust's `CString`/`CStr` invariant,
contain no interior zero byte; `String` holds valid UTF-8 by Rust's
invariant.  The C representation `fz_string_t` is opaque and in bijection
with `FzString`, so the model identifies the two. -/
inductive FzString : Type
  | Null : FzString
  | CString : List Nat → FzString
  | CStr : List Nat → FzString
  | String : List Nat → FzString
  | Bytes : List Nat → FzString
deriving DecidableEq

/-- The Rust-side representation invariants of the variants: `CString` and
`CStr` have no interior NUL byte; `String` content is valid UTF-8. -/
def FzString.wf : FzString → Prop
  | .CString bs => bs.contains 0 = false
  | .CStr bs => bs.contains 0 = false
  | .String bs => validUtf8 bs = true
  | _ => True

/-- The content bytes of a non-Null string (without any NUL terminator);
`[]` for `Null`, which is only used under a non-Null guard. -/
def FzString.raw_bytes : FzString → List Nat
  | .Null => []
  | .CString bs => bs
  | .CStr bs => bs
  | .String bs => bs
  | .Bytes bs => bs

/-- Modelled from the spec: `FzString::as_bytes` — the content as a byte
slice; the `Null` variant yields an absent result. -/
def FzString.as_bytes : FzString → Option (List Nat)
  | .Null => none
  | s => some s.raw_bytes

/-- Modelled from the spec: `FzString::as_str` — read-as-text.  Fails
(`Utf8Error` with `valid_up_to`) exactly when the content is not valid
UTF-8; the `Null` variant yields `Ok(None)`, an absent result rather than an
error.  The `String` variant is valid by construction and is returned
directly. -/
def FzString.as_str : FzString → Except Utf8Error (Option (List Nat))
  | .Null => .ok none
  | .String bs => .ok (some bs)
  | .CString bs => if validUtf8 bs then .ok (some bs) else .error ⟨utf8ValidUpTo bs⟩
  | .CStr bs => if validUtf8 bs then .ok (some bs) else .error ⟨utf8ValidUpTo bs⟩
  | .Bytes bs => if validUtf8 bs then .ok (some bs) else .error ⟨utf8ValidUpTo bs⟩

/-- Modelled from the spec: `FzString::string_to_cstring`, the in-place
rewrite performed by the C-string accessor: a `String` variant without
embedded NUL is converted to the `CString` variant with the same content (to
gain a NUL terminator); every other variant, including `Bytes`, is left
unchanged (as the source's `…_string_to_cstring` tests assert). -/
def FzString.string_to_cstring : FzString → FzString
  | .String bs => if bs.contains 0 then .String bs else .CString bs
  | s => s

/-- Modelled from the spec: `fz_string_is_null` — true exactly on the Null
variant. -/
def fz_string_is_null (s : FzString) : Bool :=
  match s with
  | .Null => true
  | _ => false

/-- Modelled from the spec: `fz_string_null` — the null-sentinel
constructor. -/
def fz_string_null : FzString :=
  FzString.Null

/-- The content a C `char *` argument points to: the bytes before the first
NUL terminator. -/
def cstrContent (buf : List Nat) : List Nat :=
  buf.takeWhile (fun b => b ≠ 0)

/-- Modelled from the spec: `fz_string_borrow` — wraps the given C string
(given here by the byte buffer it points at) as a Borrowed (`CStr`)
variant. -/
def fz_string_borrow (buf : List Nat) : FzString :=
  FzString.CStr (cstrContent buf)

/-- Modelled from the spec: `fz_string_clone` — clones the given C string's
content into an independent Owned (`CString`) variant. -/
def fz_string_clone (buf : List Nat) : FzString :=
  FzString.CString (cstrContent buf)

/-- Modelled from the spec: `fz_string_clone_with_len` — clones exactly
`len` bytes (embedded NULs allowed) into an Owned (`Bytes`) variant. -/
def fz_string_clone_with_len (buf : List Nat) (len : Nat) : FzString :=
  FzString.Bytes (buf.take len)

/-- Modelled from the spec: `fz_string_content` — the content as a
NUL-terminated C string, or NULL (`none`).  Per the documented contract in
the source: a string containing NUL bytes yields NULL; the Null variant
yields NULL; invalid UTF-8 yields NULL.  The accompanying in-place rewrite
is `FzString.string_to_cstring`. -/
def fz_string_content (s : FzString) : Option (List Nat) :=
  match s.as_str with
  | .ok (some t) => if t.contains 0 then none else some t
  | _ => none

/-- Modelled from the spec: `fz_string_content_with_len` — the content as a
pointer and length; never fails: any bytes, embedded NULs or invalid UTF-8
included, are returned as-is.  The Null variant yields NULL with length
zero. -/
def fz_string_content_with_len (s : FzString) : Option (List Nat) × Nat :=
  match s with
  | .Null => (none, 0)
  | s => (some s.raw_bytes, s.raw_bytes.length)

/-- Modelled from the spec: `FzString::into_string` — the content as an
owned native string: Null yields `Ok(None)`; invalid UTF-8 is a
`Utf8Error`. -/
def FzString.into_string : FzString → Except Utf8Error (Option (List Nat))
  | .Null => .ok none
  | s => if validUtf8 s.raw_bytes then .ok (some s.raw_bytes)
         else .error ⟨utf8ValidUpTo s.raw_bytes⟩

/-- Modelled from the spec: `FzString::into_path_buf` — the content as a
filesystem path: Null yields `Ok(None)`; invalid UTF-8 is a `Utf8Error`. -/
def FzString.into_path_buf : FzString → Except Utf8Error (Option (List Nat))
  | .Null => .ok none
  | s => if validUtf8 s.raw_bytes then .ok (some s.raw_bytes)
         else .error ⟨utf8ValidUpTo s.raw_bytes⟩

/-! ### The `tc_string_…` wrappers from `string.rs`

Each is a direct delegation to the corresponding `fz_string_…` function, as
in the source. -/

/-- `tc_string_borrow` (string.rs): delegates to `fz_string_borrow`. -/
def tc_string_borrow (buf : List Nat) : FzString :=
  fz_string_borrow buf

/-- `tc_string_null` (string.rs): delegates to `fz_string_null`. -/
def tc_string_null : FzString :=
  fz_string_null

/-- `tc_string_clone` (string.rs): delegates to `fz_string_clone`. -/
def tc_string_clone (buf : List Nat) : FzString :=
  fz_string_clone buf

/-- `tc_string_clone_with_len` (string.rs): delegates to
`fz_string_clone_with_len`. -/
def tc_string_clone_with_len (buf : List Nat) (size : Nat) : FzString :=
  fz_string_clone_with_len buf size

/-- `tc_string_content` (string.rs): delegates to `fz_string_content`. -/
def tc_string_content (s : FzString) : Option (List Nat) :=
  fz_string_content s

/-- `tc_string_content_with_len` (string.rs): delegates to
`fz_string_content_with_len`. -/
def tc_string_content_with_len (s : FzString) : Option (List Nat) × Nat :=
  fz_string_content_with_len s

/-- `tc_string_is_null` (string.rs): delegates to `fz_string_is_null`. -/
def tc_string_is_null (s : FzString) : Bool :=
  fz_string_is_null s

/-! ## Vectors and raw parts (`util.rs` and the CList trait)

A Rust `Vec<T>` is modelled as its element list together with its capacity
and the address of its backing buffer.  Rust guarantees the buffer pointer
of a `Vec` is never null: for a capacity-0 vector it is the dangling,
aligned, nonzero `NonNull::dangling()` address, modelled here by 1. -/

/-- Model of a Rust `Vec<α>`: elements, capacity, buffer address. -/
structure RustVec (α : Type) where
  data : List α
  cap : Nat
  ptr : Nat
deriving DecidableEq

/-- `Vec::new()`: empty, capacity 0, dangling (nonzero) buffer pointer. -/
def RustVec.new (α : Type) : RustVec α :=
  ⟨[], 0, 1⟩

/-- `vec_into_raw_parts` (util.rs): decompose a `Vec` into
(ptr, len, cap) without dropping anything. -/
def vec_into_raw_parts {α : Type} (vec : RustVec α) : Nat × Nat × Nat :=
  (vec.ptr, vec.data.length, vec.cap)

/-- Modelled from the spec: `Vec::from_raw_parts` — reconstruct a `Vec` with
the original allocator bookkeeping from (ptr, len, cap); the `len` elements
are read back from the heap at `ptr`. -/
def vec_from_raw_parts {α : Type} (heap : Nat → α) (ptr len cap : Nat) : RustVec α :=
  ⟨(List.range len).map (fun i => heap (ptr + i)), cap, ptr⟩

/-! ## TCStringList (string.rs) -/

/-- `TCStringList` (string.rs): length, capacity (internal use only), and
the raw `items` pointer (0 = NULL). -/
structure TCStringList where
  len : Nat
  capacity : Nat
  items : Nat
deriving DecidableEq

/-- `CList::from_raw_parts` for `TCStringList` (string.rs). -/
def TCStringList.from_raw_parts (items : Nat) (len : Nat) (cap : Nat) : TCStringList :=
  { len := len, capacity := cap, items := items }

/-- `CList::into_raw_parts` for `TCStringList` (string.rs). -/
def TCStringList.into_raw_parts (l : TCStringList) : Nat × Nat × Nat :=
  (l.items, l.len, l.capacity)

/-- Modelled from the spec: `CList::return_val` — convert an owned native
sequence into the raw list struct via `vec_into_raw_parts`, guaranteeing a
non-null pointer even for zero-length sequences. -/
def TCStringList.return_val (vec : RustVec FzString) : TCStringList :=
  let parts := vec_into_raw_parts vec
  TCStringList.from_raw_parts parts.1 parts.2.1 parts.2.2

/-! ## Freeing lists

Freeing is observable through a trace of destruction events: one event per
element destructor invocation and one event for releasing the backing
buffer.  A free function takes the abstract contents of the list's buffer
and returns the value stored back into the caller's slot together with the
trace, in execution order. -/

/-- A UDA value at the Rust level (`Uda` in uda.rs): the three fields taken
out of a `TCUda`. -/
structure Uda where
  ns : FzString
  key : FzString
  value : FzString
deriving DecidableEq

/-- Heap-release events observable while freeing. -/
inductive FreeEvent : Type
  | dropString : FzString → FreeEvent
  | dropUda : Uda → FreeEvent
  | dropBuffer : FreeEvent
deriving DecidableEq

/-- The drain loop of `tc_string_list_free` (string.rs): take each element
in index order and drop it. -/
def drainDropStrings : List FzString → List FreeEvent
  | [] => []
  | e :: rest => FreeEvent.dropString e :: drainDropStrings rest

/-- `tc_string_list_free` (string.rs): replace the caller's slot with the
null list `from_raw_parts(NULL, 0, 0)`, reconstruct the vector, drop each
element in sequence order, then drop the backing vector.  `contents` is the
sequence of strings the list's buffer holds. -/
def tc_string_list_free (contents : List FzString) : TCStringList × List FreeEvent :=
  (TCStringList.from_raw_parts 0 0 0, drainDropStrings contents ++ [FreeEvent.dropBuffer])

/-! ## TCUda and TCUdaList (uda.rs) -/

/-- `TCUda` (uda.rs): the C-representation record; each field is a
`TCString`. -/
structure TCUda where
  ns : FzString
  key : FzString
  value : FzString
deriving DecidableEq

/-- `PassByValue::from_ctype` for `TCUda` (uda.rs): take ownership of each
field (`FzString::take` is the identity on the abstract value). -/
def TCUda.from_ctype (u : TCUda) : Uda :=
  { ns := u.ns, key := u.key, value := u.value }

/-- `PassByValue::as_ctype` for `TCUda` (uda.rs): transfer each field
outward (`return_val` is the identity on the abstract value). -/
def TCUda.as_ctype (uda : Uda) : TCUda :=
  { ns := uda.ns, key := uda.key, value := uda.value }

/-- `Default for TCUda` (uda.rs): every field is the Null-variant string
(`FzString::Null.return_val()`). -/
def TCUda.default : TCUda :=
  { ns := FzString.Null, key := FzString.Null, value := FzString.Null }

/-- `tc_uda_free` (uda.rs): `take_val_from_arg(tcuda, TCUda::default())` —
store the default record into the caller's slot, take the old value out and
drop it.  Returns the new slot value and the record that was dropped. -/
def tc_uda_free (slot : TCUda) : TCUda × Uda :=
  (TCUda.default, TCUda.from_ctype slot)

/-- `TCUdaList` (uda.rs): length, capacity (field `_capacity`, internal use
only), and the raw `items` pointer (0 = NULL). -/
structure TCUdaList where
  len : Nat
  ucapacity : Nat
  items : Nat
deriving DecidableEq

/-- `CList::from_raw_parts` for `TCUdaList` (uda.rs). -/
def TCUdaList.from_raw_parts (items : Nat) (len : Nat) (cap : Nat) : TCUdaList :=
  { len := len, ucapacity := cap, items := items }

/-- `CList::into_raw_parts` for `TCUdaList` (uda.rs). -/
def TCUdaList.into_raw_parts (l : TCUdaList) : Nat × Nat × Nat :=
  (l.items, l.len, l.ucapacity)

/-- Modelled from the spec: `CList::return_val` for `TCUdaList`. -/
def TCUdaList.return_val (vec : RustVec TCUda) : TCUdaList :=
  let parts := vec_into_raw_parts vec
  TCUdaList.from_raw_parts parts.1 parts.2.1 parts.2.2

/-- The element-destructor loop of `drop_value_list` for `TCUda` elements:
take each record out of the buffer in index order (`from_ctype`) and drop
it. -/
def drainDropUdas : List TCUda → List FreeEvent
  | [] => []
  | e :: rest => FreeEvent.dropUda (TCUda.from_ctype e) :: drainDropUdas rest

/-- Modelled from the spec: `drop_value_list` — the inverse conversion of
the raw list, followed by running each element's destructor in sequence
order, then releasing the backing buffer; the slot's pointer field is
overwritten with the null sentinel. -/
def drop_value_list (contents : List TCUda) : TCUdaList × List FreeEvent :=
  (TCUdaList.from_raw_parts 0 0 0, drainDropUdas contents ++ [FreeEvent.dropBuffer])

/-- `tc_uda_list_free` (uda.rs): delegates to `drop_value_list`. -/
def tc_uda_list_free (contents : List TCUda) : TCUdaList × List FreeEvent :=
  drop_value_list contents

/-! ## Server constructors (server.rs)

The wrapped sync-server library is external; its `into_server` operation is
a parameter of the embedding (an arbitrary fallible computation producing a
server value of an arbitrary type).  Error messages are byte strings.  The
error-out slot is modelled by its nullness (`error_out_null`) on input and,
on output, by `Option FzString`: `none` means the slot was not written,
`some s` means `FzString::initialize(error_out, s)` stored `s` there.
A constructor's `Option` result models panics (`expect` on a Null argument):
`none` is a panic, `some` a normal return. -/

/-- `ServerConfig` (taskchampion): the two configurations this layer
builds. -/
inductive ServerConfig : Type
  | Local : List Nat → ServerConfig
  | Remote : List Nat → List Nat → List Nat → ServerConfig
deriving DecidableEq

/-- `err_to_fzstring` (util.rs): format the error and wrap it as an Owned
native-string variant (`FzString::from(String)`). -/
def err_to_fzstring (e : List Nat) : FzString :=
  FzString.String e

/-- `wrap` (server.rs): run the fallible computation; on success write the
Null string to the error-out slot (when non-null) and return the value; on
failure write the formatted error (when non-null) and return `err_value`. -/
def wrap {T : Type} (f : Unit → Except (List Nat) T) (error_out_null : Bool)
    (err_value : T) : T × Option FzString :=
  match f () with
  | .ok v => (v, if error_out_null then none else some FzString.Null)
  | .error e => (err_value, if error_out_null then none else some (err_to_fzstring e))

/-- `PassByPointer::return_ptr` for `TCServer`: box the server and hand the
(non-null) pointer out; modelled by `some`. -/
def TCServer.return_ptr {S : Type} (s : S) : Option S :=
  some s

/-- The closure body of `tc_server_new_local` (server.rs): convert
`server_dir` to a path (`?` propagates a `Utf8Error`; `expect` panics on a
Null path, modelled by the outer `none`), build the local config, run
`into_server`, and return the boxed pointer. -/
def serverLocalBody {S : Type} (intoServer : ServerConfig → Except (List Nat) S)
    (server_dir : FzString) : Option (Except (List Nat) (Option S)) :=
  match server_dir.into_path_buf with
  | .error e => some (.error e.message)
  | .ok none => none
  | .ok (some dir) => some ((intoServer (ServerConfig.Local dir)).map TCServer.return_ptr)

/-- `tc_server_new_local` (server.rs): the closure body run under `wrap`
with the NULL pointer as the error-case return value.  The outer `none`
models a panic escaping the call. -/
def tc_server_new_local {S : Type} (intoServer : ServerConfig → Except (List Nat) S)
    (server_dir : FzString) (error_out_null : Bool) :
    Option (Option S × Option FzString) :=
  (serverLocalBody intoServer server_dir).map (fun r => wrap (fun _ => r) error_out_null none)

/-- The closure body of `tc_server_new_remote` (server.rs): convert `origin`
to a native string (`?` propagates a `Utf8Error`; `expect` panics on Null),
copy the client key, take the secret's bytes (`expect` panics on Null),
build the remote config, run `into_server`, and return the boxed
pointer. -/
def serverRemoteBody {S : Type} (intoServer : ServerConfig → Except (List Nat) S)
    (origin : FzString) (client_key : List Nat) (encryption_secret : FzString) :
    Option (Except (List Nat) (Option S)) :=
  match origin.into_string with
  | .error e => some (.error e.message)
  | .ok none => none
  | .ok (some o) =>
    match encryption_secret.as_bytes with
    | none => none
    | some sec => some ((intoServer (ServerConfig.Remote o client_key sec)).map TCServer.return_ptr)

/-- `tc_server_new_remote` (server.rs): the closure body run under `wrap`
with the NULL pointer as the error-case return value. -/
def tc_server_new_remote {S : Type} (intoServer : ServerConfig → Except (List Nat) S)
    (origin : FzString) (client_key : List Nat) (encryption_secret : FzString)
    (error_out_null : Bool) : Option (Option S × Option FzString) :=
  (serverRemoteBody intoServer origin client_key encryption_secret).map
    (fun r => wrap (fun _ => r) error_out_null none)

/-! ## Timestamp conversions (util.rs) -/

/-- Model of `chrono::DateTime<Utc>` at whole-second precision: the Unix
timestamp in seconds. -/
structure DateTimeUtc where
  secs : Int
deriving DecidableEq

/-- Modelled from the spec: `taskchampion::utc_timestamp` — build the UTC
timestamp denoting `secs` seconds after the epoch. -/
def utc_timestamp (secs : Int) : DateTimeUtc :=
  ⟨secs⟩

/-- `DateTime::timestamp`: the Unix timestamp in seconds. -/
def DateTimeUtc.timestamp (d : DateTimeUtc) : Int :=
  d.secs

/-- `time_t_to_chrono` (util.rs): zero is the absent-timestamp sentinel and
maps to `None`; any other value maps to its UTC timestamp. -/
def time_t_to_chrono (time : Int) : Option DateTimeUtc :=
  if time ≠ 0 then some (utc_timestamp time) else none

/-- `chrono_to_time_t` (util.rs): `Some ts` maps to its Unix timestamp,
`None` to zero. -/
def chrono_to_time_t (ts : Option DateTimeUtc) : Int :=
  (ts.map DateTimeUtc.timestamp).getD 0

/-! ## Helper lemmas -/

/-- The string-list drain loop drops exactly one string per element, in
list order. -/
theorem drainDropStrings_eq_map (ss : List FzString) :
    drainDropStrings ss = ss.map FreeEvent.dropString := by
  induction ss with
  | nil => rfl
  | cons e rest ih => simp [drainDropStrings, ih]

/-- The UDA-list drain loop drops exactly one record per element, in list
order. -/
theorem drainDropUdas_eq_map (us : List TCUda) :
    drainDropUdas us = us.map (fun u => FreeEvent.dropUda (TCUda.from_ctype u)) := by
  induction us with
  | nil => rfl
  | cons e rest ih => simp [drainDropUdas, ih]

/-- A buffer without zero bytes is its own C-string content. -/
theorem cstrContent_eq_self (bs : List Nat) (h : bs.contains 0 = false) :
    cstrContent bs = bs := by
  induction bs with
  | nil => rfl
  | cons b rest ih =>
    simp only [List.contains_cons, Bool.or_eq_false_iff] at h
    have h0 : ¬ b = 0 := by
      intro hb
      subst hb
      simp at h
    have hrest : cstrContent rest = rest := ih h.2
    simp [cstrContent, List.takeWhile_cons, h0] at hrest ⊢
    exact hrest

/-! ## Claims -/

/-- C1: freeing a raw list of N elements (`tc_string_list_free` /
`tc_uda_list_free`) invokes the element-level destructor exactly once on
each of the N elements, in index order 0..N-1, before the backing buffer is
released, and afterwards the slot's items pointer is NULL and its length
and capacity are zero. -/
theorem list_free_drops_each_once_in_order (ss : List FzString) (us : List TCUda) :
    (tc_string_list_free ss).2 = ss.map FreeEvent.dropString ++ [FreeEvent.dropBuffer] ∧
    (tc_string_list_free ss).1.items = 0 ∧
    (tc_string_list_free ss).1.len = 0 ∧
    (tc_string_list_free ss).1.capacity = 0 ∧
    (tc_uda_list_free us).2 =
      us.map (fun u => FreeEvent.dropUda (TCUda.from_ctype u)) ++ [FreeEvent.dropBuffer] ∧
    (tc_uda_list_free us).1.items = 0 ∧
    (tc_uda_list_free us).1.len = 0 ∧
    (tc_uda_list_free us).1.ucapacity = 0 := by
  refine ⟨?_, rfl, rfl, rfl, ?_, rfl, rfl, rfl⟩
  · simp [tc_string_list_free, drainDropStrings_eq_map]
  · simp [tc_uda_list_free, drop_value_list, drainDropUdas_eq_map]

/-- The 7-byte invalid-UTF-8 scenario buffer from the source's tests:
"abc\xF0\x28\x8C\x28". -/
def invalidUtf8Bytes : List Nat :=
  [0x61, 0x62, 0x63, 0xF0, 0x28, 0x8C, 0x28]

/-- C3: the string built by clone-with-length(7) from the invalid-UTF-8
buffer "abc\xF0\x28\x8C\x28" reads back as exactly those 7 bytes with
length 7 via read-as-bytes-with-length; read-as-text on it returns a
`Utf8Error` (not a panic) whose valid prefix length is 3; and the value is
unchanged by the accessor's in-place rewrite, so a failed text read leaves
it intact. -/
theorem clone_with_len_invalid_utf8_scenario :
    tc_string_clone_with_len invalidUtf8Bytes 7 = FzString.Bytes invalidUtf8Bytes ∧
    tc_string_content_with_len (tc_string_clone_with_len invalidUtf8Bytes 7) =
      (some invalidUtf8Bytes, 7) ∧
    (tc_string_clone_with_len invalidUtf8Bytes 7).as_str =
      Except.error { valid_up_to := 3 } ∧
    (tc_string_clone_with_len invalidUtf8Bytes 7).string_to_cstring =
      tc_string_clone_with_len invalidUtf8Bytes 7 :=
  ⟨rfl, rfl, rfl, rfl⟩

/-- C4: converting the empty owned sequence into a raw list
(`TCStringList` or `TCUdaList`) yields a non-null items pointer with length
and capacity zero, and converting the raw list back (for any heap contents)
yields the empty sequence again. -/
theorem empty_list_roundtrip (heapS : Nat → FzString) (heapU : Nat → TCUda) :
    (TCStringList.return_val (RustVec.new FzString)).items ≠ 0 ∧
    (TCStringList.return_val (RustVec.new FzString)).len = 0 ∧
    (TCStringList.return_val (RustVec.new FzString)).capacity = 0 ∧
    (vec_from_raw_parts heapS
        (TCStringList.return_val (RustVec.new FzString)).into_raw_parts.1
        (TCStringList.return_val (RustVec.new FzString)).into_raw_parts.2.1
        (TCStringList.return_val (RustVec.new FzString)).into_raw_parts.2.2).data = [] ∧
    (TCUdaList.return_val (RustVec.new TCUda)).items ≠ 0 ∧
    (TCUdaList.return_val (RustVec.new TCUda)).len = 0 ∧
    (TCUdaList.return_val (RustVec.new TCUda)).ucapacity = 0 ∧
    (vec_from_raw_parts heapU
        (TCUdaList.return_val (RustVec.new TCUda)).into_raw_parts.1
        (TCUdaList.return_val (RustVec.new TCUda)).into_raw_parts.2.1
        (TCUdaList.return_val (RustVec.new TCUda)).into_raw_parts.2.2).data = [] := by
  refine ⟨by decide, rfl, rfl, ?_, by decide, rfl, rfl, ?_⟩ <;>
    simp [vec_from_raw_parts, TCStringList.return_val, TCUdaList.return_val,
      TCStringList.into_raw_parts, TCUdaList.into_raw_parts,
      TCStringList.from_raw_parts, TCUdaList.from_raw_parts,
      vec_into_raw_parts, RustVec.new]

/-- C5: the is-null predicate returns true on the value produced by the
null-sentinel constructor, and false on every value produced by the clone
constructors or the borrow constructor, for every accepted input buffer and
length. -/
theorem is_null_on_constructors (buf : List Nat) (len : Nat) :
    tc_string_is_null tc_string_null = true ∧
    tc_string_is_null (tc_string_clone buf) = false ∧
    tc_string_is_null (tc_string_clone_with_len buf len) = false ∧
    tc_string_is_null (tc_string_borrow buf) = false :=
  ⟨rfl, rfl, rfl, rfl⟩

/-- C8: the default record (`TCUda::default`) has the Null-variant string
in each of its three fields (so freeing it drops only Null strings, which
are always safe to free, making it a valid freeable record), and
`tc_uda_free` stores this default into the caller's slot when it takes the
record out, for every record in the slot. -/
theorem uda_default_valid_placeholder (u : TCUda) :
    TCUda.default.ns = FzString.Null ∧
    TCUda.default.key = FzString.Null ∧
    TCUda.default.value = FzString.Null ∧
    (tc_uda_free u).1 = TCUda.default ∧
    (tc_uda_free TCUda.default).2.ns = FzString.Null ∧
    (tc_uda_free TCUda.default).2.key = FzString.Null ∧
    (tc_uda_free TCUda.default).2.value = FzString.Null ∧
    fz_string_is_null (tc_uda_free TCUda.default).2.ns = true ∧
    fz_string_is_null (tc_uda_free TCUda.default).2.key = true ∧
    fz_string_is_null (tc_uda_free TCUda.default).2.value = true :=
  ⟨rfl, rfl, rfl, rfl, rfl, rfl, rfl, rfl, rfl, rfl⟩

/-- C9: the timestamp conversions are mutually inverse: converting any
time_t through `time_t_to_chrono` and back through `chrono_to_time_t`
yields the original value; `time_t_to_chrono` returns `none` exactly when
the input is the zero sentinel; and `chrono_to_time_t` maps `none` to zero
and `some ts` to ts's Unix timestamp. -/
theorem timestamp_conversions_inverse (t : Int) (d : DateTimeUtc) :
    chrono_to_time_t (time_t_to_chrono t) = t ∧
    (time_t_to_chrono t = none ↔ t = 0) ∧
    chrono_to_time_t none = 0 ∧
    chrono_to_time_t (some d) = d.timestamp := by
  by_cases h : t = 0 <;>
    simp [time_t_to_chrono, chrono_to_time_t, utc_timestamp, DateTimeUtc.timestamp, h]

/-- C10: for both raw list types, decomposing after reconstructing is the
identity on the raw triple: `into_raw_parts` after `from_raw_parts` returns
exactly the (ptr, len, cap) that went in. -/
theorem list_raw_parts_roundtrip (p l c : Nat) :
    TCStringList.into_raw_parts (TCStringList.from_raw_parts p l c) = (p, l, c) ∧
    TCUdaList.into_raw_parts (TCUdaList.from_raw_parts p l c) = (p, l, c) :=
  ⟨rfl, rfl⟩

/-- C7: for every byte sequence with valid-UTF-8 content, constructing a
foreign string from it — by clone-with-length (owned byte buffer), by the
native-string constructor, or (when the content has no embedded NUL, so it
is representable as a C string) by the C-string clone or borrow
constructors — and reading it back as text returns exactly the original
content; the length-aware accessor also round-trips content with embedded
NUL bytes. -/
theorem valid_text_roundtrip (bs : List Nat) (hv : validUtf8 bs = true) :
    (tc_string_clone_with_len bs bs.length).as_str = Except.ok (some bs) ∧
    (FzString.String bs).as_str = Except.ok (some bs) ∧
    tc_string_content_with_len (tc_string_clone_with_len bs bs.length) =
      (some bs, bs.length) ∧
    (bs.contains 0 = false →
      (tc_string_clone bs).as_str = Except.ok (some bs) ∧
      (tc_string_borrow bs).as_str = Except.ok (some bs)) := by
  refine ⟨?_, rfl, ?_, fun h0 => ⟨?_, ?_⟩⟩
  · simp [tc_string_clone_with_len, fz_string_clone_with_len, FzString.as_str, hv]
  · simp [tc_string_content_with_len, fz_string_content_with_len,
      tc_string_clone_with_len, fz_string_clone_with_len, FzString.raw_bytes]
  · simp [tc_string_clone, fz_string_clone, FzString.as_str,
      cstrContent_eq_self bs h0, hv]
  · simp [tc_string_borrow, fz_string_borrow, FzString.as_str,
      cstrContent_eq_self bs h0, hv]

/-- C7 witness: the round-trip theorem applied to the concrete valid text
"hi" = [104, 105], for the clone-with-length and C-string clone
constructors. -/
theorem valid_text_roundtrip_witness :
    (tc_string_clone_with_len [104, 105] (List.length [104, 105])).as_str =
      Except.ok (some [104, 105]) ∧
    (tc_string_clone [104, 105]).as_str = Except.ok (some [104, 105]) :=
  ⟨(valid_text_roundtrip [104, 105] (by decide)).1,
   ((valid_text_roundtrip [104, 105] (by decide)).2.2.2 (by decide)).1⟩

/-- C6 counterexample: the claim says read-as-text fails exactly when the
content is not valid UTF-8, but the C-string accessor `tc_string_content`
also fails (returns NULL) on the valid-UTF-8 content [97, 0, 98] = "a\0b"
because of the embedded NUL byte, as its documented contract in string.rs
states. -/
theorem string_content_exact_utf8_refuted :
    ¬ (∀ s : FzString, s ≠ FzString.Null →
        (tc_string_content s = none ↔ validUtf8 s.raw_bytes = false)) := by
  intro h
  have h2 := (h (FzString.String [97, 0, 98]) (by simp)).mp rfl
  exact absurd h2 (by decide)

/-- C6 (amended): for every well-formed foreign string, the C-string
accessor `tc_string_content` fails (NULL) exactly when the value is Null,
the content is invalid UTF-8, or the content contains an embedded NUL byte;
`as_str` fails exactly when the content is invalid UTF-8, and on the Null
variant yields an absent result rather than an error;
`tc_string_content_with_len` never fails on non-Null values — it returns
the raw content and its length — and on Null yields a NULL pointer with
length zero. -/
theorem string_accessors_characterized (s : FzString) (hwf : s.wf) :
    (tc_string_content s = none ↔
      (s = FzString.Null ∨ validUtf8 s.raw_bytes = false ∨
        s.raw_bytes.contains 0 = true)) ∧
    (s ≠ FzString.Null →
      ((∃ e, s.as_str = Except.error e) ↔ validUtf8 s.raw_bytes = false)) ∧
    FzString.as_str FzString.Null = Except.ok none ∧
    (s ≠ FzString.Null →
      tc_string_content_with_len s = (some s.raw_bytes, s.raw_bytes.length)) ∧
    tc_string_content_with_len FzString.Null = (none, 0) := by
  cases s with
  | Null =>
    simp [tc_string_content, fz_string_content, FzString.as_str,
      tc_string_content_with_len, fz_string_content_with_len]
  | CString bs =>
    have h0 : bs.contains 0 = false := hwf
    by_cases hv : validUtf8 bs = true
    · simp [tc_string_content, fz_string_content, FzString.as_str, hv, h0,
        tc_string_content_with_len, fz_string_content_with_len, FzString.raw_bytes]
    · rw [Bool.not_eq_true] at hv
      simp [tc_string_content, fz_string_content, FzString.as_str, hv,
        tc_string_content_with_len, fz_string_content_with_len, FzString.raw_bytes]
  | CStr bs =>
    have h0 : bs.contains 0 = false := hwf
    by_cases hv : validUtf8 bs = true
    · simp [tc_string_content, fz_string_content, FzString.as_str, hv, h0,
        tc_string_content_with_len, fz_string_content_with_len, FzString.raw_bytes]
    · rw [Bool.not_eq_true] at hv
      simp [tc_string_content, fz_string_content, FzString.as_str, hv,
        tc_string_content_with_len, fz_string_content_with_len, FzString.raw_bytes]
  | String bs =>
    have hv : validUtf8 bs = true := hwf
    by_cases h0 : bs.contains 0 = true
    · simp [tc_string_content, fz_string_content, FzString.as_str, hv, h0,
        tc_string_content_with_len, fz_string_content_with_len, FzString.raw_bytes]
    · rw [Bool.not_eq_true] at h0
      simp [tc_string_content, fz_string_content, FzString.as_str, hv, h0,
        tc_string_content_with_len, fz_string_content_with_len, FzString.raw_bytes]
  | Bytes bs =>
    by_cases hv : validUtf8 bs = true
    · by_cases h0 : bs.contains 0 = true
      · simp [tc_string_content, fz_string_content, FzString.as_str, hv, h0,
          tc_string_content_with_len, fz_string_content_with_len, FzString.raw_bytes]
      · rw [Bool.not_eq_true] at h0
        simp [tc_string_content, fz_string_content, FzString.as_str, hv, h0,
          tc_string_content_with_len, fz_string_content_with_len, FzString.raw_bytes]
    · rw [Bool.not_eq_true] at hv
      simp [tc_string_content, fz_string_content, FzString.as_str, hv,
        tc_string_content_with_len, fz_string_content_with_len, FzString.raw_bytes]

/-- C6 witness: the amended characterization applied to the concrete
well-formed value Bytes [97]: its C-string content is present (the content
is valid UTF-8 with no embedded NUL). -/
theorem string_accessors_characterized_witness :
    tc_string_content (FzString.Bytes [97]) = none ↔
      (FzString.Bytes [97] = FzString.Null ∨
        validUtf8 (FzString.raw_bytes (FzString.Bytes [97])) = false ∨
        (FzString.raw_bytes (FzString.Bytes [97])).contains 0 = true) :=
  (string_accessors_characterized (FzString.Bytes [97]) trivial).1

/-- C2: for the fallible server constructors run under `wrap`: when the
wrapped computation succeeds, the error-out slot (when non-null) is set to
the Null string and the non-null boxed server pointer is returned; when it
fails, the slot (when non-null) receives the formatted error message as an
Owned native string and the NULL sentinel pointer is returned; a NULL
error-out slot is never written in either case (the slot-write component is
`none` exactly when `error_out_null` is true). -/
theorem server_new_error_out_convention {S : Type}
    (intoServer : ServerConfig → Except (List Nat) S)
    (server_dir origin secret : FzString) (key : List Nat) (b : Bool) :
    (∀ s : S, TCServer.return_ptr s ≠ (none : Option S)) ∧
    (∀ dir srv, server_dir.into_path_buf = Except.ok (some dir) →
      intoServer (ServerConfig.Local dir) = Except.ok srv →
      tc_server_new_local intoServer server_dir b =
        some (some srv, if b then none else some FzString.Null)) ∧
    (∀ dir e, server_dir.into_path_buf = Except.ok (some dir) →
      intoServer (ServerConfig.Local dir) = Except.error e →
      tc_server_new_local intoServer server_dir b =
        some (none, if b then none else some (err_to_fzstring e))) ∧
    (∀ e, server_dir.into_path_buf = Except.error e →
      tc_server_new_local intoServer server_dir b =
        some (none, if b then none else some (err_to_fzstring e.message))) ∧
    (∀ o sec srv, origin.into_string = Except.ok (some o) →
      secret.as_bytes = some sec →
      intoServer (ServerConfig.Remote o key sec) = Except.ok srv →
      tc_server_new_remote intoServer origin key secret b =
        some (some srv, if b then none else some FzString.Null)) ∧
    (∀ o sec e, origin.into_string = Except.ok (some o) →
      secret.as_bytes = some sec →
      intoServer (ServerConfig.Remote o key sec) = Except.error e →
      tc_server_new_remote intoServer origin key secret b =
        some (none, if b then none else some (err_to_fzstring e))) ∧
    (∀ e, origin.into_string = Except.error e →
      tc_server_new_remote intoServer origin key secret b =
        some (none, if b then none else some (err_to_fzstring e.message))) := by
  refine ⟨fun s => by simp [TCServer.return_ptr], ?_, ?_, ?_, ?_, ?_, ?_⟩
  · intro dir srv h1 h2
    simp [tc_server_new_local, serverLocalBody, h1, h2, wrap, TCServer.return_ptr,
      Except.map]
  · intro dir e h1 h2
    simp [tc_server_new_local, serverLocalBody, h1, h2, wrap, Except.map]
  · intro e h1
    simp [tc_server_new_local, serverLocalBody, h1, wrap]
  · intro o sec srv h1 h2 h3
    simp [tc_server_new_remote, serverRemoteBody, h1, h2, h3, wrap,
      TCServer.return_ptr, Except.map]
  · intro o sec e h1 h2 h3
    simp [tc_server_new_remote, serverRemoteBody, h1, h2, h3, wrap, Except.map]
  · intro e h1
    simp [tc_server_new_remote, serverRemoteBody, h1, wrap]

/-- C2 witness: the convention theorem applied to concrete computations: a
local constructor whose wrapped computation succeeds (slot gets the Null
string, result non-null) and a remote constructor whose wrapped computation
fails with message [120] (slot gets the Owned error string, result is the
NULL sentinel). -/
theorem server_new_error_out_convention_witness :
    tc_server_new_local (fun _ => (Except.ok () : Except (List Nat) Unit))
        (FzString.String [97]) false =
      some (some (), some FzString.Null) ∧
    tc_server_new_remote (fun _ => (Except.error [120] : Except (List Nat) Unit))
        (FzString.String [97]) [1] (FzString.Bytes [2]) false =
      some (none, some (err_to_fzstring [120])) :=
  ⟨by
    have h := (server_new_error_out_convention
      (fun _ => (Except.ok () : Except (List Nat) Unit))
      (FzString.String [97]) (FzString.String [97]) (FzString.Bytes [2]) [1]
      false).2.1
    exact h [97] () rfl rfl,
   by
    have h := (server_new_error_out_convention
      (fun _ => (Except.error [120] : Except (List Nat) Unit))
      (FzString.String [97]) (FzString.String [97]) (FzString.Bytes [2]) [1]
      false).2.2.2.2.2.1
    exact h [97] [2] [120] rfl rfl rfl⟩
